import Mathlib

/-!
# Energy Ingestion Engine — verification of the dual-path persistence and
windowed-aggregation core

Shallow embedding of the repository's core services:

* `IngestionService` (src/services/ingestion.service.ts): single and batch
  ingestion of meter and vehicle telemetry, each executed inside one storage
  transaction that upserts the Current-State row and appends History entries,
  committing both or rolling both back.
* `AnalyticsService` (src/services/analytics.service.ts):
  `getVehiclePerformance` computing a trailing 24-hour window aggregate and
  `calculateHealthStatus` classifying the efficiency ratio.
* The class-validator constraints of `MeterTelemetryDto` and
  `VehicleTelemetryDto` (src/dtos), applied by the framework's validation
  pipe before any service method runs.

Modelling conventions:
* JS numbers / SQL decimals are modelled as exact rationals (`ℚ`).
* Timestamps are epoch milliseconds (`Int`); the external date parser
  (`new Date(string)` / `@IsDateString`) is an abstract parameter
  `parse : String → Option Int` (`none` = not parseable as a UTC instant).
* The wall clock `new Date()` of `getVehiclePerformance` is an explicit
  `now : Int` parameter.
* Storage failure is modelled by an oracle `failAt : Option Nat` naming the
  first write/commit step inside the transaction that throws; the services'
  `catch` blocks roll the transaction back, so a failing call returns the
  snapshot taken at `startTransaction`.
* `Math.round x` is `⌊x + 1/2⌋`, which matches JS round-half-up semantics
  (including `Math.round (-0.5) = 0`).
-/

namespace EnergyIngestion

/-- src/dtos/meter-telemetry.dto.ts: `MeterTelemetryDto`. -/
structure MeterTelemetryDto where
  meterId : String
  kwhConsumedAc : ℚ
  voltage : ℚ
  timestamp : String
deriving Repr, DecidableEq

/-- src/dtos/vehicle-telemetry.dto.ts: `VehicleTelemetryDto`. -/
structure VehicleTelemetryDto where
  vehicleId : String
  soc : ℚ
  kwhDeliveredDc : ℚ
  batteryTemp : ℚ
  timestamp : String
deriving Repr, DecidableEq

/-- src/entities/meter-current-status.entity.ts (`created_at`, which is never
derived from the ingested record, is omitted). -/
structure MeterCurrentStatus where
  meterId : String
  kwhConsumedAc : ℚ
  voltage : ℚ
  lastUpdated : Int
deriving Repr, DecidableEq

/-- src/entities/vehicle-current-status.entity.ts. -/
structure VehicleCurrentStatus where
  vehicleId : String
  soc : ℚ
  kwhDeliveredDc : ℚ
  batteryTemp : ℚ
  lastUpdated : Int
deriving Repr, DecidableEq

/-- src/entities/meter-telemetry-history.entity.ts; the surrogate id is the
position in the history list (append order), `ingested_at` is omitted. -/
structure MeterTelemetryHistory where
  meterId : String
  kwhConsumedAc : ℚ
  voltage : ℚ
  timestamp : Int
deriving Repr, DecidableEq

/-- src/entities/vehicle-telemetry-history.entity.ts. -/
structure VehicleTelemetryHistory where
  vehicleId : String
  soc : ℚ
  kwhDeliveredDc : ℚ
  batteryTemp : ℚ
  timestamp : Int
deriving Repr, DecidableEq

/-- The two Current-State tables (keyed by device identifier) and the two
append-only History tables. -/
structure Store where
  meterStatus : String → Option MeterCurrentStatus
  vehicleStatus : String → Option VehicleCurrentStatus
  meterHistory : List MeterTelemetryHistory
  vehicleHistory : List VehicleTelemetryHistory

def emptyStore : Store :=
  { meterStatus := fun _ => none
    vehicleStatus := fun _ => none
    meterHistory := []
    vehicleHistory := [] }

/-- `calculateHealthStatus` of src/services/analytics.service.ts, verbatim
threshold structure. -/
def calculateHealthStatus (efficiency : ℚ) (dataPoints : Nat) : String :=
  if dataPoints < 10 then
    "INSUFFICIENT_DATA"
  else
    if efficiency ≥ 9/10 then "EXCELLENT"
    else if efficiency ≥ 85/100 then "NORMAL"
    else if efficiency ≥ 75/100 then "WARNING"
    else "CRITICAL"

/-- Errors surfaced by ingestion: the validation pipe's `ValidationError`
(carrying the names of the offending DTO fields) or the storage layer's
`PersistenceError`. -/
inductive IngestError where
  | validation : List String → IngestError
  | persistence : IngestError
deriving Repr, DecidableEq

/-- Result of one ingest call: the store visible after the call (the
committed state on success, the rolled-back snapshot on failure) together
with the returned value or error. -/
structure IngestOutcome where
  store : Store
  result : Except IngestError Unit

/-- class-validator checks of `MeterTelemetryDto`: `@IsString()` on
`meterId` (never fails on a string value — emptiness is NOT checked),
`@IsNumber() @Min(0)` on `kwhConsumedAc` and `voltage`, `@IsDateString()`
on `timestamp`. Returns the offending field names. -/
def validateMeterDto (parse : String → Option Int) (dto : MeterTelemetryDto) :
    List String :=
  (if dto.kwhConsumedAc < 0 then ["kwhConsumedAc"] else [])
    ++ (if dto.voltage < 0 then ["voltage"] else [])
    ++ (if (parse dto.timestamp).isNone then ["timestamp"] else [])

/-- class-validator checks of `VehicleTelemetryDto`: `@IsString()` on
`vehicleId` (never fails on a string value), `@Min(0) @Max(100)` on `soc`,
`@Min(0)` on `kwhDeliveredDc`, `@IsNumber()` on `batteryTemp` (no range
check), `@IsDateString()` on `timestamp`. -/
def validateVehicleDto (parse : String → Option Int)
    (dto : VehicleTelemetryDto) : List String :=
  (if dto.soc < 0 ∨ 100 < dto.soc then ["soc"] else [])
    ++ (if dto.kwhDeliveredDc < 0 then ["kwhDeliveredDc"] else [])
    ++ (if (parse dto.timestamp).isNone then ["timestamp"] else [])

/-- Batch bodies are validated item by item by the pipe. -/
def validateMeterBatch (parse : String → Option Int)
    (data : List MeterTelemetryDto) : List String :=
  (data.map (validateMeterDto parse)).flatten

def validateVehicleBatch (parse : String → Option Int)
    (data : List VehicleTelemetryDto) : List String :=
  (data.map (validateVehicleDto parse)).flatten

/-- `queryRunner.manager.upsert(MeterCurrentStatus, {...}, ['meterId'])`:
replace-or-insert the row keyed by `meterId`, with
`lastUpdated := new Date(data.timestamp)`.  (`getD 0` stands for the
JS Invalid Date; it is unreachable behind the validation pipe.) -/
def upsertMeterStatus (parse : String → Option Int) (s : Store)
    (data : MeterTelemetryDto) : Store :=
  { s with meterStatus := fun id =>
      if id = data.meterId then
        some { meterId := data.meterId
               kwhConsumedAc := data.kwhConsumedAc
               voltage := data.voltage
               lastUpdated := (parse data.timestamp).getD 0 }
      else s.meterStatus id }

/-- `queryRunner.manager.upsert(VehicleCurrentStatus, {...}, ['vehicleId'])`. -/
def upsertVehicleStatus (parse : String → Option Int) (s : Store)
    (data : VehicleTelemetryDto) : Store :=
  { s with vehicleStatus := fun id =>
      if id = data.vehicleId then
        some { vehicleId := data.vehicleId
               soc := data.soc
               kwhDeliveredDc := data.kwhDeliveredDc
               batteryTemp := data.batteryTemp
               lastUpdated := (parse data.timestamp).getD 0 }
      else s.vehicleStatus id }

/-- The history row built from a meter DTO
(`queryRunner.manager.insert(MeterTelemetryHistory, {...})`). -/
def meterHistoryRow (parse : String → Option Int)
    (data : MeterTelemetryDto) : MeterTelemetryHistory :=
  { meterId := data.meterId
    kwhConsumedAc := data.kwhConsumedAc
    voltage := data.voltage
    timestamp := (parse data.timestamp).getD 0 }

def vehicleHistoryRow (parse : String → Option Int)
    (data : VehicleTelemetryDto) : VehicleTelemetryHistory :=
  { vehicleId := data.vehicleId
    soc := data.soc
    kwhDeliveredDc := data.kwhDeliveredDc
    batteryTemp := data.batteryTemp
    timestamp := (parse data.timestamp).getD 0 }

def insertMeterHistory (s : Store) (row : MeterTelemetryHistory) : Store :=
  { s with meterHistory := s.meterHistory ++ [row] }

def insertVehicleHistory (s : Store) (row : VehicleTelemetryHistory) : Store :=
  { s with vehicleHistory := s.vehicleHistory ++ [row] }

/-- `IngestionService.ingestMeterTelemetry`: one transaction with write
steps upsert (0), history insert (1), commit (2).  If the step named by the
failure oracle is reached, the `catch` block rolls back and the call fails
with the pre-transaction snapshot `s` intact. -/
def ingestMeterTelemetry (parse : String → Option Int) (failAt : Option Nat)
    (s : Store) (data : MeterTelemetryDto) : IngestOutcome :=
  if failAt = some 0 then ⟨s, .error .persistence⟩
  else
    let s1 := upsertMeterStatus parse s data
    if failAt = some 1 then ⟨s, .error .persistence⟩
    else
      let s2 := insertMeterHistory s1 (meterHistoryRow parse data)
      if failAt = some 2 then ⟨s, .error .persistence⟩
      else ⟨s2, .ok ()⟩

/-- `IngestionService.ingestVehicleTelemetry`. -/
def ingestVehicleTelemetry (parse : String → Option Int) (failAt : Option Nat)
    (s : Store) (data : VehicleTelemetryDto) : IngestOutcome :=
  if failAt = some 0 then ⟨s, .error .persistence⟩
  else
    let s1 := upsertVehicleStatus parse s data
    if failAt = some 1 then ⟨s, .error .persistence⟩
    else
      let s2 := insertVehicleHistory s1 (vehicleHistoryRow parse data)
      if failAt = some 2 then ⟨s, .error .persistence⟩
      else ⟨s2, .ok ()⟩

/-- The per-item upsert loop of `ingestMeterBatch`, threading the step
counter of the failure oracle; `none` means some upsert threw. -/
def runMeterBatchUpserts (parse : String → Option Int) (failAt : Option Nat)
    (step : Nat) (s : Store) :
    List MeterTelemetryDto → Option (Store × Nat)
  | [] => some (s, step)
  | d :: ds =>
      if failAt = some step then none
      else runMeterBatchUpserts parse failAt (step + 1)
        (upsertMeterStatus parse s d) ds

def runVehicleBatchUpserts (parse : String → Option Int) (failAt : Option Nat)
    (step : Nat) (s : Store) :
    List VehicleTelemetryDto → Option (Store × Nat)
  | [] => some (s, step)
  | d :: ds =>
      if failAt = some step then none
      else runVehicleBatchUpserts parse failAt (step + 1)
        (upsertVehicleStatus parse s d) ds

/-- `IngestionService.ingestMeterBatch`: `if (data.length === 0) return;`
before any transaction is opened; otherwise one transaction holding the
upsert loop, one bulk history insert and the commit. -/
def ingestMeterBatch (parse : String → Option Int) (failAt : Option Nat)
    (s : Store) (data : List MeterTelemetryDto) : IngestOutcome :=
  if data.isEmpty then ⟨s, .ok ()⟩
  else
    match runMeterBatchUpserts parse failAt 0 s data with
    | none => ⟨s, .error .persistence⟩
    | some (s1, step) =>
        if failAt = some step then ⟨s, .error .persistence⟩
        else
          let s2 := { s1 with meterHistory :=
            s1.meterHistory ++ data.map (meterHistoryRow parse) }
          if failAt = some (step + 1) then ⟨s, .error .persistence⟩
          else ⟨s2, .ok ()⟩

/-- `IngestionService.ingestVehicleBatch`. -/
def ingestVehicleBatch (parse : String → Option Int) (failAt : Option Nat)
    (s : Store) (data : List VehicleTelemetryDto) : IngestOutcome :=
  if data.isEmpty then ⟨s, .ok ()⟩
  else
    match runVehicleBatchUpserts parse failAt 0 s data with
    | none => ⟨s, .error .persistence⟩
    | some (s1, step) =>
        if failAt = some step then ⟨s, .error .persistence⟩
        else
          let s2 := { s1 with vehicleHistory :=
            s1.vehicleHistory ++ data.map (vehicleHistoryRow parse) }
          if failAt = some (step + 1) then ⟨s, .error .persistence⟩
          else ⟨s2, .ok ()⟩

/-- `POST /v1/ingest/meter`: the framework validation pipe rejects the DTO
with a `ValidationError` before the service runs; otherwise the service
method executes. -/
def ingestMeterEndpoint (parse : String → Option Int) (failAt : Option Nat)
    (s : Store) (data : MeterTelemetryDto) : IngestOutcome :=
  match validateMeterDto parse data with
  | [] => ingestMeterTelemetry parse failAt s data
  | errs => ⟨s, .error (.validation errs)⟩

def ingestVehicleEndpoint (parse : String → Option Int) (failAt : Option Nat)
    (s : Store) (data : VehicleTelemetryDto) : IngestOutcome :=
  match validateVehicleDto parse data with
  | [] => ingestVehicleTelemetry parse failAt s data
  | errs => ⟨s, .error (.validation errs)⟩

def ingestMeterBatchEndpoint (parse : String → Option Int)
    (failAt : Option Nat) (s : Store) (data : List MeterTelemetryDto) :
    IngestOutcome :=
  match validateMeterBatch parse data with
  | [] => ingestMeterBatch parse failAt s data
  | errs => ⟨s, .error (.validation errs)⟩

def ingestVehicleBatchEndpoint (parse : String → Option Int)
    (failAt : Option Nat) (s : Store) (data : List VehicleTelemetryDto) :
    IngestOutcome :=
  match validateVehicleBatch parse data with
  | [] => ingestVehicleBatch parse failAt s data
  | errs => ⟨s, .error (.validation errs)⟩

/-- History entries for one meter id (the denotation of
`COUNT(*) ... WHERE meter_id = id`). -/
def meterHistCount (s : Store) (id : String) : Nat :=
  (s.meterHistory.filter (fun h => h.meterId == id)).length

def vehicleHistCount (s : Store) (id : String) : Nat :=
  (s.vehicleHistory.filter (fun h => h.vehicleId == id)).length

/-! ## Analytics (src/services/analytics.service.ts) -/

/-- `24 * 60 * 60 * 1000` of `getVehiclePerformance`. -/
def oneDayMs : Int := 24 * 60 * 60 * 1000

/-- `Math.round` (round half toward positive infinity). -/
def jsRound (q : ℚ) : Int := ⌊q + 1/2⌋

/-- `Math.round(x * 10000) / 10000`. -/
def round4 (q : ℚ) : ℚ := (jsRound (q * 10000) : ℚ) / 10000

/-- `Math.round(x * 100) / 100`. -/
def round2 (q : ℚ) : ℚ := (jsRound (q * 100) : ℚ) / 100

/-- The vehicle-stream range read:
`WHERE vehicleId = :id AND timestamp >= now-24h AND timestamp <= now`. -/
def windowVehicleRows (s : Store) (vehicleId : String) (now : Int) :
    List VehicleTelemetryHistory :=
  s.vehicleHistory.filter (fun v =>
    v.vehicleId == vehicleId
      && decide (now - oneDayMs ≤ v.timestamp)
      && decide (v.timestamp ≤ now))

/-- The meter-stream range read (same window, `meterId := vehicleId`). -/
def windowMeterRows (s : Store) (meterId : String) (now : Int) :
    List MeterTelemetryHistory :=
  s.meterHistory.filter (fun m =>
    m.meterId == meterId
      && decide (now - oneDayMs ≤ m.timestamp)
      && decide (m.timestamp ≤ now))

/-- `NotFoundException` is the only analytics error. -/
inductive AnalyticsError where
  | notFound : String → AnalyticsError
deriving Repr, DecidableEq

/-- `VehiclePerformanceAnalyticsDto` (src/dtos/analytics-response.dto.ts);
period bounds kept as instants. -/
structure VehiclePerformanceAnalytics where
  vehicleId : String
  periodStart : Int
  periodEnd : Int
  totalEnergyConsumedAc : ℚ
  totalEnergyDeliveredDc : ℚ
  efficiencyRatio : ℚ
  avgBatteryTemp : ℚ
  dataPointsAnalyzed : Nat
  healthStatus : String
deriving Repr, DecidableEq

/-- `AnalyticsService.getVehiclePerformance`: the two window aggregates,
the not-found guard on the vehicle count, the `totalAc` defaulting to `0`
when the meter SUM is NULL, the DC/AC ratio guarded by `totalAc > 0`, the
health classification of the unrounded ratio, and the rounded response. -/
def getVehiclePerformance (s : Store) (vehicleId : String) (now : Int) :
    Except AnalyticsError VehiclePerformanceAnalytics :=
  let oneDayAgo := now - oneDayMs
  let vrows := windowVehicleRows s vehicleId now
  let count := vrows.length
  if count = 0 then
    .error (.notFound
      ("No data found for vehicle " ++ vehicleId ++ " in the last 24 hours"))
  else
    let totalEnergyDeliveredDc := (vrows.map (·.kwhDeliveredDc)).sum
    let avgBatteryTemp := (vrows.map (·.batteryTemp)).sum / (count : ℚ)
    let mrows := windowMeterRows s vehicleId now
    let totalEnergyConsumedAc := (mrows.map (·.kwhConsumedAc)).sum
    let efficiencyRatio :=
      if 0 < totalEnergyConsumedAc then
        totalEnergyDeliveredDc / totalEnergyConsumedAc
      else 0
    let healthStatus := calculateHealthStatus efficiencyRatio count
    .ok { vehicleId := vehicleId
          periodStart := oneDayAgo
          periodEnd := now
          totalEnergyConsumedAc := totalEnergyConsumedAc
          totalEnergyDeliveredDc := totalEnergyDeliveredDc
          efficiencyRatio := round4 efficiencyRatio
          avgBatteryTemp := round2 avgBatteryTemp
          dataPointsAnalyzed := count
          healthStatus := healthStatus }

/-! ## Concrete instantiations used by witnesses and counterexamples -/

/-- A concrete stand-in for the external ISO-8601 parser, defined on the
minute instants the witnesses and counterexamples use (epoch millis). -/
def demoParse (s : String) : Option Int :=
  if s = "1970-01-01T00:00:00Z" then some 0
  else if s = "1970-01-01T00:01:00Z" then some 60000
  else if s = "1970-01-01T00:02:00Z" then some 120000
  else if s = "1970-01-01T00:03:00Z" then some 180000
  else if s = "1970-01-01T00:04:00Z" then some 240000
  else if s = "1970-01-01T00:05:00Z" then some 300000
  else if s = "1970-01-01T00:06:00Z" then some 360000
  else if s = "1970-01-01T00:07:00Z" then some 420000
  else if s = "1970-01-01T00:08:00Z" then some 480000
  else if s = "1970-01-01T00:09:00Z" then some 540000
  else none

instance {ε α : Type} [DecidableEq ε] [DecidableEq α] :
    DecidableEq (Except ε α) := fun a b =>
  match a, b with
  | .error x, .error y =>
      if h : x = y then .isTrue (by rw [h]) else .isFalse (by simp [h])
  | .ok x, .ok y =>
      if h : x = y then .isTrue (by rw [h]) else .isFalse (by simp [h])
  | .error _, .ok _ => .isFalse (by simp)
  | .ok _, .error _ => .isFalse (by simp)

/-- A well-formed meter reading used to exercise the failure oracle. -/
def demoMeterDto : MeterTelemetryDto :=
  { meterId := "M-1", kwhConsumedAc := 1, voltage := 230
    timestamp := "1970-01-01T00:00:00Z" }

/-- A well-formed vehicle reading. -/
def demoVehicleDto : VehicleTelemetryDto :=
  { vehicleId := "V-1", soc := 50, kwhDeliveredDc := 1, batteryTemp := 20
    timestamp := "1970-01-01T00:00:00Z" }

/-- A store holding a single vehicle reading (at the epoch) and no meter
data at all. -/
def oneVehicleStore : Store :=
  { emptyStore with vehicleHistory := [⟨"V-2", 50, 1, 20, 0⟩] }

/-- The summary `getVehiclePerformance oneVehicleStore "V-2" 0` produces. -/
def oneVehicleSummary : VehiclePerformanceAnalytics :=
  ⟨"V-2", -86400000, 0, 0, 1, 0, 20, 1, "INSUFFICIENT_DATA"⟩

/-- Two readings for one vehicle: one strictly inside the 24-hour window
ending at `now = 100000000`, one strictly before it. -/
def mixedWindowStore : Store :=
  { emptyStore with vehicleHistory :=
      [⟨"V-7", 50, 1, 20, 20000000⟩, ⟨"V-7", 50, 1, 20, 0⟩] }

/-- Two readings for one vehicle timestamped exactly at the two ends of the
24-hour window ending at `now = 100000000`
(`100000000 - 86400000 = 13600000`). -/
def boundaryWindowStore : Store :=
  { emptyStore with vehicleHistory :=
      [⟨"V-7", 50, 1, 20, 13600000⟩, ⟨"V-7", 50, 1, 20, 100000000⟩] }

/-- A meter reading whose device identifier is the empty string and whose
other fields all satisfy the declared constraints. -/
def emptyIdMeterDto : MeterTelemetryDto :=
  { meterId := "", kwhConsumedAc := 1, voltage := 1
    timestamp := "1970-01-01T00:00:00Z" }

/-- A meter reading with a negative voltage. -/
def negVoltageMeterDto : MeterTelemetryDto :=
  { meterId := "M-2", kwhConsumedAc := 1, voltage := -1
    timestamp := "1970-01-01T00:00:00Z" }

/-- The end-to-end scenario of §8 of the spec: ten vehicle readings for
`V-1` at `T, T+1min, …, T+9min` (epoch `T = 0`), each delivering
105.2134 kWh DC, totalling 1052.134. -/
def scenarioVehicleDtos : List VehicleTelemetryDto :=
  [⟨"V-1", 85.5, 105.2134, 32.5, "1970-01-01T00:00:00Z"⟩,
   ⟨"V-1", 85.5, 105.2134, 32.5, "1970-01-01T00:01:00Z"⟩,
   ⟨"V-1", 85.5, 105.2134, 32.5, "1970-01-01T00:02:00Z"⟩,
   ⟨"V-1", 85.5, 105.2134, 32.5, "1970-01-01T00:03:00Z"⟩,
   ⟨"V-1", 85.5, 105.2134, 32.5, "1970-01-01T00:04:00Z"⟩,
   ⟨"V-1", 85.5, 105.2134, 32.5, "1970-01-01T00:05:00Z"⟩,
   ⟨"V-1", 85.5, 105.2134, 32.5, "1970-01-01T00:06:00Z"⟩,
   ⟨"V-1", 85.5, 105.2134, 32.5, "1970-01-01T00:07:00Z"⟩,
   ⟨"V-1", 85.5, 105.2134, 32.5, "1970-01-01T00:08:00Z"⟩,
   ⟨"V-1", 85.5, 105.2134, 32.5, "1970-01-01T00:09:00Z"⟩]

/-- The matching ten meter readings, each consuming 125.5432 kWh AC,
totalling 1255.432. -/
def scenarioMeterDtos : List MeterTelemetryDto :=
  [⟨"V-1", 125.5432, 240.5, "1970-01-01T00:00:00Z"⟩,
   ⟨"V-1", 125.5432, 240.5, "1970-01-01T00:01:00Z"⟩,
   ⟨"V-1", 125.5432, 240.5, "1970-01-01T00:02:00Z"⟩,
   ⟨"V-1", 125.5432, 240.5, "1970-01-01T00:03:00Z"⟩,
   ⟨"V-1", 125.5432, 240.5, "1970-01-01T00:04:00Z"⟩,
   ⟨"V-1", 125.5432, 240.5, "1970-01-01T00:05:00Z"⟩,
   ⟨"V-1", 125.5432, 240.5, "1970-01-01T00:06:00Z"⟩,
   ⟨"V-1", 125.5432, 240.5, "1970-01-01T00:07:00Z"⟩,
   ⟨"V-1", 125.5432, 240.5, "1970-01-01T00:08:00Z"⟩,
   ⟨"V-1", 125.5432, 240.5, "1970-01-01T00:09:00Z"⟩]

/-- The store after batch-ingesting the whole scenario, end to end through
the validating endpoints, into the empty store. -/
def scenarioStore : Store :=
  (ingestMeterBatchEndpoint demoParse none
    (ingestVehicleBatchEndpoint demoParse none emptyStore
      scenarioVehicleDtos).store
    scenarioMeterDtos).store

/-- The scenario's history rows in the parametric shape used by the
amended end-to-end theorem, with `T = 0`. -/
def paramScenarioStore : Store :=
  { emptyStore with
    vehicleHistory := (List.range 10).map fun i =>
      ⟨"V-1", 85.5, 105.2134, 32.5, 0 + 60000 * (i : ℤ)⟩
    meterHistory := (List.range 10).map fun i =>
      ⟨"V-1", 125.5432, 240.5, 0 + 60000 * (i : ℤ)⟩ }

/-- The vehicle history rows the scenario ingestion writes. -/
def scenarioVehicleRows : List VehicleTelemetryHistory :=
  [⟨"V-1", 85.5, 105.2134, 32.5, 0⟩,
   ⟨"V-1", 85.5, 105.2134, 32.5, 60000⟩,
   ⟨"V-1", 85.5, 105.2134, 32.5, 120000⟩,
   ⟨"V-1", 85.5, 105.2134, 32.5, 180000⟩,
   ⟨"V-1", 85.5, 105.2134, 32.5, 240000⟩,
   ⟨"V-1", 85.5, 105.2134, 32.5, 300000⟩,
   ⟨"V-1", 85.5, 105.2134, 32.5, 360000⟩,
   ⟨"V-1", 85.5, 105.2134, 32.5, 420000⟩,
   ⟨"V-1", 85.5, 105.2134, 32.5, 480000⟩,
   ⟨"V-1", 85.5, 105.2134, 32.5, 540000⟩]

/-- The meter history rows the scenario ingestion writes. -/
def scenarioMeterRows : List MeterTelemetryHistory :=
  [⟨"V-1", 125.5432, 240.5, 0⟩,
   ⟨"V-1", 125.5432, 240.5, 60000⟩,
   ⟨"V-1", 125.5432, 240.5, 120000⟩,
   ⟨"V-1", 125.5432, 240.5, 180000⟩,
   ⟨"V-1", 125.5432, 240.5, 240000⟩,
   ⟨"V-1", 125.5432, 240.5, 300000⟩,
   ⟨"V-1", 125.5432, 240.5, 360000⟩,
   ⟨"V-1", 125.5432, 240.5, 420000⟩,
   ⟨"V-1", 125.5432, 240.5, 480000⟩,
   ⟨"V-1", 125.5432, 240.5, 540000⟩]

end EnergyIngestion

namespace EnergyIngestion

/-- Case split for `ingestMeterTelemetry`: every branch either rolls back to
the snapshot or commits successfully. -/
theorem ingestMeterTelemetry_rollback_or_commit (parse : String → Option Int)
    (failAt : Option Nat) (s : Store) (md : MeterTelemetryDto) :
    (ingestMeterTelemetry parse failAt s md).store = s
    ∨ (ingestMeterTelemetry parse failAt s md).result = .ok () := by
  unfold ingestMeterTelemetry
  split_ifs <;> simp

theorem ingestVehicleTelemetry_rollback_or_commit (parse : String → Option Int)
    (failAt : Option Nat) (s : Store) (vd : VehicleTelemetryDto) :
    (ingestVehicleTelemetry parse failAt s vd).store = s
    ∨ (ingestVehicleTelemetry parse failAt s vd).result = .ok () := by
  unfold ingestVehicleTelemetry
  split_ifs <;> simp

theorem ingestMeterBatch_rollback_or_commit (parse : String → Option Int)
    (failAt : Option Nat) (s : Store) (mb : List MeterTelemetryDto) :
    (ingestMeterBatch parse failAt s mb).store = s
    ∨ (ingestMeterBatch parse failAt s mb).result = .ok () := by
  unfold ingestMeterBatch
  split_ifs
  · simp
  · split
    · simp
    · split_ifs <;> simp

theorem ingestVehicleBatch_rollback_or_commit (parse : String → Option Int)
    (failAt : Option Nat) (s : Store) (vb : List VehicleTelemetryDto) :
    (ingestVehicleBatch parse failAt s vb).store = s
    ∨ (ingestVehicleBatch parse failAt s vb).result = .ok () := by
  unfold ingestVehicleBatch
  split_ifs
  · simp
  · split
    · simp
    · split_ifs <;> simp

/-- C1: for every ingest operation (single or batch, meter or vehicle) and
every starting store, a failing call — whether rejected by validation or
aborted by a storage failure at any step of the transaction — leaves the
whole store (hence every device's Current-State row and History entry
count) exactly as it was; in particular a batch containing one failing
record applies none of its records. -/
theorem ingest_failure_leaves_store_unchanged (parse : String → Option Int)
    (failAt : Option Nat) (s : Store) (md : MeterTelemetryDto)
    (vd : VehicleTelemetryDto) (mb : List MeterTelemetryDto)
    (vb : List VehicleTelemetryDto) :
    (∀ e, (ingestMeterEndpoint parse failAt s md).result = .error e →
        (ingestMeterEndpoint parse failAt s md).store = s)
    ∧ (∀ e, (ingestVehicleEndpoint parse failAt s vd).result = .error e →
        (ingestVehicleEndpoint parse failAt s vd).store = s)
    ∧ (∀ e, (ingestMeterBatchEndpoint parse failAt s mb).result = .error e →
        (ingestMeterBatchEndpoint parse failAt s mb).store = s)
    ∧ (∀ e, (ingestVehicleBatchEndpoint parse failAt s vb).result = .error e →
        (ingestVehicleBatchEndpoint parse failAt s vb).store = s) := by
  refine ⟨fun e he => ?_, fun e he => ?_, fun e he => ?_, fun e he => ?_⟩
  · unfold ingestMeterEndpoint at *
    split at he
    · rcases ingestMeterTelemetry_rollback_or_commit parse failAt s md with
        h | h
      · exact h
      · rw [h] at he; exact absurd he (by simp)
    · rfl
  · unfold ingestVehicleEndpoint at *
    split at he
    · rcases ingestVehicleTelemetry_rollback_or_commit parse failAt s vd with
        h | h
      · exact h
      · rw [h] at he; exact absurd he (by simp)
    · rfl
  · unfold ingestMeterBatchEndpoint at *
    split at he
    · rcases ingestMeterBatch_rollback_or_commit parse failAt s mb with h | h
      · exact h
      · rw [h] at he; exact absurd he (by simp)
    · rfl
  · unfold ingestVehicleBatchEndpoint at *
    split at he
    · rcases ingestVehicleBatch_rollback_or_commit parse failAt s vb with h | h
      · exact h
      · rw [h] at he; exact absurd he (by simp)
    · rfl

/-- Witness for `ingest_failure_leaves_store_unchanged`: a storage failure
at the very first upsert of a single-meter ingest leaves the empty store
untouched. -/
theorem ingest_failure_leaves_store_unchanged_witness :
    (ingestMeterEndpoint demoParse (some 0) emptyStore demoMeterDto).store
      = emptyStore :=
  (ingest_failure_leaves_store_unchanged demoParse (some 0) emptyStore
      demoMeterDto demoVehicleDto [] []).1 .persistence (by rfl)

/-- C10: a batch call with an empty record list succeeds and is a complete
no-op: the store is returned unchanged and, because the guard returns
before a query runner is created, not even a failure of the very first
storage step (`failAt = some 0`, quantified here) can be observed. -/
theorem empty_batch_succeeds_unchanged (parse : String → Option Int)
    (failAt : Option Nat) (s : Store) :
    ingestMeterBatchEndpoint parse failAt s [] = ⟨s, .ok ()⟩
    ∧ ingestVehicleBatchEndpoint parse failAt s [] = ⟨s, .ok ()⟩ :=
  ⟨rfl, rfl⟩

/-- C2: a successful single-record ingest stores exactly the record's field
values in the Current-State row keyed by its device identifier, with the
record's embedded observation timestamp (not a database write time, which
the write path never consults) as `lastUpdated`. -/
theorem ingest_success_current_state_fresh (parse : String → Option Int)
    (failAt : Option Nat) (s : Store) (md : MeterTelemetryDto)
    (vd : VehicleTelemetryDto) (tm tv : Int) :
    (parse md.timestamp = some tm →
      (ingestMeterEndpoint parse failAt s md).result = .ok () →
      ((ingestMeterEndpoint parse failAt s md).store).meterStatus md.meterId
        = some ⟨md.meterId, md.kwhConsumedAc, md.voltage, tm⟩)
    ∧ (parse vd.timestamp = some tv →
      (ingestVehicleEndpoint parse failAt s vd).result = .ok () →
      ((ingestVehicleEndpoint parse failAt s vd).store).vehicleStatus
          vd.vehicleId
        = some ⟨vd.vehicleId, vd.soc, vd.kwhDeliveredDc, vd.batteryTemp, tv⟩) := by
  constructor
  · intro hp hok
    unfold ingestMeterEndpoint at *
    split at hok
    · unfold ingestMeterTelemetry at *
      split_ifs at hok with h0 h1 h2
      simp [h0, h1, h2, insertMeterHistory, upsertMeterStatus, hp]
    · simp at hok
  · intro hp hok
    unfold ingestVehicleEndpoint at *
    split at hok
    · unfold ingestVehicleTelemetry at *
      split_ifs at hok with h0 h1 h2
      simp [h0, h1, h2, insertVehicleHistory, upsertVehicleStatus, hp]
    · simp at hok

/-- Witness for `ingest_success_current_state_fresh`: ingesting
`demoVehicleDto` into the empty store yields its Current-State row. -/
theorem ingest_success_current_state_fresh_witness :
    ((ingestVehicleEndpoint demoParse none emptyStore demoVehicleDto).store).vehicleStatus
        "V-1"
      = some ⟨"V-1", 50, 1, 20, 0⟩ :=
  (ingest_success_current_state_fresh demoParse none emptyStore demoMeterDto
      demoVehicleDto 0 0).2 (by rfl) (by rfl)

/-- C8: re-ingesting the same record leaves the Current-State row for its
device exactly as after the first ingest (the replace-or-insert is
idempotent), while each ingest appends one more History entry, so two
ingests grow the device's History count by two. -/
theorem ingest_twice_current_idempotent_history_duplicated
    (parse : String → Option Int) (s : Store) (md : MeterTelemetryDto)
    (vd : VehicleTelemetryDto) :
    (((ingestMeterTelemetry parse none
          (ingestMeterTelemetry parse none s md).store md).store).meterStatus
        md.meterId
      = ((ingestMeterTelemetry parse none s md).store).meterStatus md.meterId)
    ∧ meterHistCount (ingestMeterTelemetry parse none s md).store md.meterId
        = meterHistCount s md.meterId + 1
    ∧ meterHistCount (ingestMeterTelemetry parse none
          (ingestMeterTelemetry parse none s md).store md).store md.meterId
        = meterHistCount s md.meterId + 2
    ∧ (((ingestVehicleTelemetry parse none
          (ingestVehicleTelemetry parse none s vd).store vd).store).vehicleStatus
        vd.vehicleId
      = ((ingestVehicleTelemetry parse none s vd).store).vehicleStatus
          vd.vehicleId)
    ∧ vehicleHistCount (ingestVehicleTelemetry parse none s vd).store
          vd.vehicleId
        = vehicleHistCount s vd.vehicleId + 1
    ∧ vehicleHistCount (ingestVehicleTelemetry parse none
          (ingestVehicleTelemetry parse none s vd).store vd).store vd.vehicleId
        = vehicleHistCount s vd.vehicleId + 2 := by
  refine ⟨?_, ?_, ?_, ?_, ?_, ?_⟩ <;>
    simp [ingestMeterTelemetry, ingestVehicleTelemetry, insertMeterHistory,
      insertVehicleHistory, upsertMeterStatus, upsertVehicleStatus,
      meterHistCount, vehicleHistCount, meterHistoryRow, vehicleHistoryRow,
      List.filter_append]

/-- C3: `classify(x, n)` returns `INSUFFICIENT_DATA` whenever `n < 10`
regardless of `x`; otherwise `EXCELLENT` when `x ≥ 0.90`, `NORMAL` when
`0.85 ≤ x < 0.90`, `WARNING` when `0.75 ≤ x < 0.85` and `CRITICAL` when
`x < 0.75`, every band inclusive at its lower bound. -/
theorem calculateHealthStatus_bands (x : ℚ) (n : Nat) :
    (n < 10 → calculateHealthStatus x n = "INSUFFICIENT_DATA")
    ∧ (10 ≤ n →
        (9/10 ≤ x → calculateHealthStatus x n = "EXCELLENT")
        ∧ (85/100 ≤ x → x < 9/10 → calculateHealthStatus x n = "NORMAL")
        ∧ (75/100 ≤ x → x < 85/100 → calculateHealthStatus x n = "WARNING")
        ∧ (x < 75/100 → calculateHealthStatus x n = "CRITICAL")) := by
  unfold calculateHealthStatus
  refine ⟨fun h => by simp [h], fun h => ⟨?_, ?_, ?_, ?_⟩⟩ <;>
    intros <;> split_ifs <;> first | rfl | omega | linarith

/-- Witness for `calculateHealthStatus_bands`: the documented boundary cases
`classify(0.85, 50) = NORMAL` and `classify(0.90, 50) = EXCELLENT`. -/
theorem calculateHealthStatus_bands_witness :
    calculateHealthStatus (85/100) 50 = "NORMAL"
    ∧ calculateHealthStatus (9/10) 50 = "EXCELLENT" :=
  ⟨((calculateHealthStatus_bands (85/100) 50).2 (by norm_num)).2.1
      (by norm_num) (by norm_num),
    ((calculateHealthStatus_bands (9/10) 50).2 (by norm_num)).1 (by norm_num)⟩

/-- Evaluation of `getVehiclePerformance` when the vehicle window is empty:
the `NotFoundException` branch. -/
theorem getVehiclePerformance_eq_error (s : Store) (id : String) (now : Int)
    (h : (windowVehicleRows s id now).length = 0) :
    getVehiclePerformance s id now
      = .error (.notFound
          ("No data found for vehicle " ++ id ++ " in the last 24 hours")) := by
  simp only [getVehiclePerformance]
  rw [if_pos h]

/-- Evaluation of `getVehiclePerformance` when the vehicle window is
non-empty: the summary branch, all fields explicit. -/
theorem getVehiclePerformance_eq_ok (s : Store) (id : String) (now : Int)
    (h : ¬(windowVehicleRows s id now).length = 0) :
    getVehiclePerformance s id now
      = .ok { vehicleId := id
              periodStart := now - oneDayMs
              periodEnd := now
              totalEnergyConsumedAc :=
                ((windowMeterRows s id now).map (·.kwhConsumedAc)).sum
              totalEnergyDeliveredDc :=
                ((windowVehicleRows s id now).map (·.kwhDeliveredDc)).sum
              efficiencyRatio := round4
                (if 0 < ((windowMeterRows s id now).map (·.kwhConsumedAc)).sum
                 then ((windowVehicleRows s id now).map (·.kwhDeliveredDc)).sum
                    / ((windowMeterRows s id now).map (·.kwhConsumedAc)).sum
                 else 0)
              avgBatteryTemp := round2
                (((windowVehicleRows s id now).map (·.batteryTemp)).sum
                  / ((windowVehicleRows s id now).length : ℚ))
              dataPointsAnalyzed := (windowVehicleRows s id now).length
              healthStatus := calculateHealthStatus
                (if 0 < ((windowMeterRows s id now).map (·.kwhConsumedAc)).sum
                 then ((windowVehicleRows s id now).map (·.kwhDeliveredDc)).sum
                    / ((windowMeterRows s id now).map (·.kwhConsumedAc)).sum
                 else 0)
                (windowVehicleRows s id now).length } := by
  simp only [getVehiclePerformance]
  rw [if_neg h]

/-- `Math.round` evaluated at a rational with explicit bounds. -/
theorem jsRound_eq (q : ℚ) (n : ℤ) (h1 : (n : ℚ) ≤ q + 1/2)
    (h2 : q + 1/2 < (n : ℚ) + 1) : jsRound q = n := by
  unfold jsRound
  rw [Int.floor_eq_iff]
  exact ⟨h1, by exact_mod_cast h2⟩

/-- 4-decimal rounding evaluated at a rational with explicit bounds. -/
theorem round4_eq (q : ℚ) (n : ℤ) (h1 : (n : ℚ) ≤ q * 10000 + 1/2)
    (h2 : q * 10000 + 1/2 < (n : ℚ) + 1) : round4 q = (n : ℚ) / 10000 := by
  unfold round4
  rw [jsRound_eq (q * 10000) n h1 h2]

/-- 2-decimal rounding evaluated at a rational with explicit bounds. -/
theorem round2_eq (q : ℚ) (n : ℤ) (h1 : (n : ℚ) ≤ q * 100 + 1/2)
    (h2 : q * 100 + 1/2 < (n : ℚ) + 1) : round2 q = (n : ℚ) / 100 := by
  unfold round2
  rw [jsRound_eq (q * 100) n h1 h2]

/-- The window read over `oneVehicleStore` selects its single reading. -/
theorem windowVehicleRows_oneVehicle :
    windowVehicleRows oneVehicleStore "V-2" 0 = [⟨"V-2", 50, 1, 20, 0⟩] := by
  norm_num [windowVehicleRows, oneVehicleStore, emptyStore, oneDayMs]

theorem windowMeterRows_oneVehicle :
    windowMeterRows oneVehicleStore "V-2" 0 = [] := rfl

/-- Full evaluation of the analytics call on `oneVehicleStore`. -/
theorem getVehiclePerformance_oneVehicle :
    getVehiclePerformance oneVehicleStore "V-2" 0 = .ok oneVehicleSummary := by
  have hne : ¬(windowVehicleRows oneVehicleStore "V-2" 0).length = 0 := by
    rw [windowVehicleRows_oneVehicle]
    simp
  rw [getVehiclePerformance_eq_ok oneVehicleStore "V-2" 0 hne]
  simp only [windowVehicleRows_oneVehicle, windowMeterRows_oneVehicle,
    List.map_nil, List.sum_nil, List.map_cons, List.sum_cons,
    List.length_cons, List.length_nil, oneVehicleSummary,
    Except.ok.injEq, VehiclePerformanceAnalytics.mk.injEq]
  have havg : ((20 : ℚ) + 0) / ((1 : ℕ) : ℚ) = 20 := by norm_num
  rw [havg, round2_eq (20 : ℚ) 2000 (by norm_num) (by norm_num)]
  norm_num [round4, jsRound, oneDayMs, calculateHealthStatus]

/-- C4: `getVehiclePerformance` fails — and then precisely with the
not-found error naming the device identifier and describing the 24-hour
window — exactly when the vehicle history stream has zero entries for that
identifier inside `[now-24h, now]`; when vehicle entries exist but the
meter stream has none in the window, the call succeeds and reports
`totalEnergyConsumedAc = 0`. -/
theorem notFound_iff_vehicle_window_empty (s : Store) (id : String)
    (now : Int) :
    ((∃ e, getVehiclePerformance s id now = .error e)
        ↔ windowVehicleRows s id now = [])
    ∧ (∀ e, getVehiclePerformance s id now = .error e →
        e = .notFound
          ("No data found for vehicle " ++ id ++ " in the last 24 hours"))
    ∧ (windowVehicleRows s id now ≠ [] → windowMeterRows s id now = [] →
        ∃ sum, getVehiclePerformance s id now = .ok sum
          ∧ sum.totalEnergyConsumedAc = 0) := by
  by_cases h : (windowVehicleRows s id now).length = 0
  · have hnil : windowVehicleRows s id now = [] :=
      List.length_eq_zero.mp h
    have he := getVehiclePerformance_eq_error s id now h
    refine ⟨⟨fun _ => hnil, fun _ => ⟨_, he⟩⟩, fun e hee => ?_,
      fun hne _ => absurd hnil hne⟩
    rw [he] at hee
    injection hee with hee
    exact hee.symm
  · have hok := getVehiclePerformance_eq_ok s id now h
    have hne : windowVehicleRows s id now ≠ [] := by
      intro hh
      exact h (by rw [hh]; rfl)
    refine ⟨⟨?_, fun hh => absurd hh hne⟩, fun e hee => ?_, fun _ hm => ?_⟩
    · rintro ⟨e, hee⟩
      rw [hok] at hee
      exact absurd hee (by simp)
    · rw [hok] at hee
      exact absurd hee (by simp)
    · refine ⟨_, hok, ?_⟩
      simp [hm]

/-- Witness for `notFound_iff_vehicle_window_empty`: a store with one
in-window vehicle reading and no meter data yields a summary whose AC
total degrades to zero. -/
theorem notFound_iff_vehicle_window_empty_witness :
    ∃ sum, getVehiclePerformance oneVehicleStore "V-2" 0 = .ok sum
      ∧ sum.totalEnergyConsumedAc = 0 :=
  (notFound_iff_vehicle_window_empty oneVehicleStore "V-2" 0).2.2
    (by decide) (by decide)

/-- C5: every successful `getVehiclePerformance` reports as
`efficiencyRatio` the windowed DC sum divided by the windowed AC sum when
the AC sum is strictly positive and `0` otherwise, rounded to 4 decimal
places, and as `avgBatteryTemp` the window average of `batteryTemp`
rounded to 2 decimal places. -/
theorem efficiency_ratio_and_rounding (s : Store) (id : String) (now : Int)
    (sum : VehiclePerformanceAnalytics)
    (h : getVehiclePerformance s id now = .ok sum) :
    sum.efficiencyRatio
      = (if 0 < ((windowMeterRows s id now).map (·.kwhConsumedAc)).sum
         then round4 (((windowVehicleRows s id now).map (·.kwhDeliveredDc)).sum
            / ((windowMeterRows s id now).map (·.kwhConsumedAc)).sum)
         else 0)
    ∧ sum.avgBatteryTemp
      = round2 (((windowVehicleRows s id now).map (·.batteryTemp)).sum
          / ((windowVehicleRows s id now).length : ℚ)) := by
  by_cases hc : (windowVehicleRows s id now).length = 0
  · rw [getVehiclePerformance_eq_error s id now hc] at h
    exact absurd h (by simp)
  · rw [getVehiclePerformance_eq_ok s id now hc] at h
    injection h with h
    subst h
    refine ⟨?_, rfl⟩
    dsimp only
    split_ifs with hpos
    · rfl
    · norm_num [round4, jsRound]

/-- Witness for `efficiency_ratio_and_rounding`, on the one-reading store
(zero AC sum, so the reported ratio is the `else` branch's `0`). -/
theorem efficiency_ratio_and_rounding_witness :
    oneVehicleSummary.efficiencyRatio
      = (if 0 < ((windowMeterRows oneVehicleStore "V-2" 0).map
            (·.kwhConsumedAc)).sum
         then round4 (((windowVehicleRows oneVehicleStore "V-2" 0).map
              (·.kwhDeliveredDc)).sum
            / ((windowMeterRows oneVehicleStore "V-2" 0).map
              (·.kwhConsumedAc)).sum)
         else 0)
    ∧ oneVehicleSummary.avgBatteryTemp
      = round2 (((windowVehicleRows oneVehicleStore "V-2" 0).map
            (·.batteryTemp)).sum
          / ((windowVehicleRows oneVehicleStore "V-2" 0).length : ℚ)) :=
  efficiency_ratio_and_rounding oneVehicleStore "V-2" 0 oneVehicleSummary
    getVehiclePerformance_oneVehicle

/-- C6: (a) on a history whose readings for the device are each either
strictly inside or strictly outside `[now-24h, now]`, `dataPointsAnalyzed`
equals the number N of strictly-inside readings, however many outside
readings exist; and (b), with no restriction at all on the history, the
window is inclusive at both ends — any reading for the device timestamped
exactly `now-24h` or exactly `now` is selected by the window read.  The
partition hypotheses govern only part (a), so part (b) speaks about
arbitrary stores, boundary-timestamped readings included. -/
theorem dataPoints_counts_window_readings (s : Store) (id : String)
    (now : Int) (N : Nat) :
    ((∀ r ∈ s.vehicleHistory, r.vehicleId = id →
        (now - oneDayMs < r.timestamp ∧ r.timestamp < now)
          ∨ r.timestamp < now - oneDayMs ∨ now < r.timestamp) →
      N = (s.vehicleHistory.filter (fun r =>
          r.vehicleId == id && decide (now - oneDayMs < r.timestamp)
            && decide (r.timestamp < now))).length →
      0 < N →
      ∃ sum, getVehiclePerformance s id now = .ok sum
        ∧ sum.dataPointsAnalyzed = N)
    ∧ ∀ r ∈ s.vehicleHistory, r.vehicleId = id →
        r.timestamp = now - oneDayMs ∨ r.timestamp = now →
        r ∈ windowVehicleRows s id now := by
  constructor
  · intro hpart hN hpos
    have hfil : windowVehicleRows s id now
        = s.vehicleHistory.filter (fun r =>
            r.vehicleId == id && decide (now - oneDayMs < r.timestamp)
              && decide (r.timestamp < now)) := by
      unfold windowVehicleRows
      apply List.filter_congr
      intro a ha
      by_cases hid : a.vehicleId = id
      · rcases hpart a ha hid with ⟨h1, h2⟩ | h3 | h3
        · rw [decide_eq_true h1.le, decide_eq_true h2.le,
            decide_eq_true h1, decide_eq_true h2]
        · rw [decide_eq_false (not_le.mpr h3),
            decide_eq_false (not_lt.mpr h3.le)]
          simp
        · rw [decide_eq_false (not_le.mpr h3),
            decide_eq_false (not_lt.mpr h3.le)]
          simp
      · have hb : (a.vehicleId == id) = false := beq_eq_false_iff_ne.mpr hid
        simp [hb]
    have hlen : (windowVehicleRows s id now).length = N := by
      rw [hfil, ← hN]
    have hne : ¬(windowVehicleRows s id now).length = 0 := by omega
    exact ⟨_, getVehiclePerformance_eq_ok s id now hne, hlen⟩
  · intro r hr hid hb
    have hb1 : now - oneDayMs ≤ r.timestamp := by
      rcases hb with hb | hb <;> simp [hb, oneDayMs]
    have hb2 : r.timestamp ≤ now := by
      rcases hb with hb | hb <;> simp [hb, oneDayMs]
    unfold windowVehicleRows
    refine List.mem_filter.mpr ⟨hr, ?_⟩
    rw [decide_eq_true hb1, decide_eq_true hb2]
    simp [hid]

/-- Witness for `dataPoints_counts_window_readings`: part (a) at a store
with one strictly-inside and one strictly-outside reading gives
`dataPointsAnalyzed = 1`; part (b) at a store with readings timestamped
exactly `now-24h` and exactly `now` shows both boundary readings are
selected by the window read. -/
theorem dataPoints_counts_window_readings_witness :
    (∃ sum, getVehiclePerformance mixedWindowStore "V-7" 100000000 = .ok sum
        ∧ sum.dataPointsAnalyzed = 1)
    ∧ (⟨"V-7", 50, 1, 20, 13600000⟩ : VehicleTelemetryHistory)
        ∈ windowVehicleRows boundaryWindowStore "V-7" 100000000
    ∧ (⟨"V-7", 50, 1, 20, 100000000⟩ : VehicleTelemetryHistory)
        ∈ windowVehicleRows boundaryWindowStore "V-7" 100000000 :=
  ⟨(dataPoints_counts_window_readings mixedWindowStore "V-7" 100000000 1).1
      (by decide) (by decide) (by decide),
    (dataPoints_counts_window_readings boundaryWindowStore "V-7"
        100000000 1).2
      ⟨"V-7", 50, 1, 20, 13600000⟩ (by decide) rfl (by decide),
    (dataPoints_counts_window_readings boundaryWindowStore "V-7"
        100000000 1).2
      ⟨"V-7", 50, 1, 20, 100000000⟩ (by decide) rfl (by decide)⟩

/-- C7 counterexample: a meter record whose device identifier is the empty
string passes the declared validation (`@IsString()` does not check
emptiness), is ingested successfully, and writes both a Current-State row
keyed by `""` and a History entry — contradicting the claim that an empty
device identifier is rejected with a `ValidationError` and no write. -/
theorem empty_deviceId_record_is_ingested :
    emptyIdMeterDto.meterId = ""
    ∧ validateMeterDto demoParse emptyIdMeterDto = []
    ∧ (ingestMeterEndpoint demoParse none emptyStore emptyIdMeterDto).result
        = .ok ()
    ∧ ((ingestMeterEndpoint demoParse none emptyStore
          emptyIdMeterDto).store).meterStatus ""
        = some ⟨"", 1, 1, 0⟩
    ∧ meterHistCount
        (ingestMeterEndpoint demoParse none emptyStore emptyIdMeterDto).store
        "" = 1 :=
  ⟨rfl, rfl, rfl, rfl, rfl⟩

/-- C7 amended: ingestion fails with a `ValidationError` naming the
offending field, and performs no write, precisely when
`kwhConsumedAc < 0`, `voltage < 0`, `soc ∉ [0,100]`, `kwhDeliveredDc < 0`,
or the timestamp is not parseable as a UTC instant.  The device identifier
is only required to be a string: an empty identifier passes validation and
is ingested. -/
theorem validation_policy (parse : String → Option Int) (failAt : Option Nat)
    (s : Store) (md : MeterTelemetryDto) (vd : VehicleTelemetryDto) :
    (validateMeterDto parse md = []
        ↔ 0 ≤ md.kwhConsumedAc ∧ 0 ≤ md.voltage ∧ parse md.timestamp ≠ none)
    ∧ (validateVehicleDto parse vd = []
        ↔ (0 ≤ vd.soc ∧ vd.soc ≤ 100) ∧ 0 ≤ vd.kwhDeliveredDc
            ∧ parse vd.timestamp ≠ none)
    ∧ ("kwhConsumedAc" ∈ validateMeterDto parse md ↔ md.kwhConsumedAc < 0)
    ∧ ("voltage" ∈ validateMeterDto parse md ↔ md.voltage < 0)
    ∧ ("timestamp" ∈ validateMeterDto parse md ↔ parse md.timestamp = none)
    ∧ ("soc" ∈ validateVehicleDto parse vd ↔ vd.soc < 0 ∨ 100 < vd.soc)
    ∧ ("kwhDeliveredDc" ∈ validateVehicleDto parse vd
        ↔ vd.kwhDeliveredDc < 0)
    ∧ ("timestamp" ∈ validateVehicleDto parse vd ↔ parse vd.timestamp = none)
    ∧ (validateMeterDto parse md ≠ [] →
        ingestMeterEndpoint parse failAt s md
          = ⟨s, .error (.validation (validateMeterDto parse md))⟩)
    ∧ (validateVehicleDto parse vd ≠ [] →
        ingestVehicleEndpoint parse failAt s vd
          = ⟨s, .error (.validation (validateVehicleDto parse vd))⟩) := by
  refine ⟨?_, ?_, ?_, ?_, ?_, ?_, ?_, ?_, ?_, ?_⟩
  · unfold validateMeterDto
    split_ifs with h1 h2 h3 <;>
      simp_all [not_lt, Option.isNone_iff_eq_none, le_of_lt]
  · unfold validateVehicleDto
    split_ifs with h1 h2 h3 <;>
      (simp_all [not_lt, not_or, Option.isNone_iff_eq_none, le_of_lt]
       try (intro hs; rcases h1 with h | h
            exacts [absurd hs (not_le.mpr h), h]))
  · unfold validateMeterDto
    split_ifs with h1 h2 h3 <;> simp_all
  · unfold validateMeterDto
    split_ifs with h1 h2 h3 <;> simp_all
  · unfold validateMeterDto
    split_ifs with h1 h2 h3 <;> simp_all [Option.isNone_iff_eq_none]
  · unfold validateVehicleDto
    split_ifs with h1 h2 h3 <;> simp_all
  · unfold validateVehicleDto
    split_ifs with h1 h2 h3 <;> simp_all
  · unfold validateVehicleDto
    split_ifs with h1 h2 h3 <;> simp_all [Option.isNone_iff_eq_none]
  · intro hne
    cases hval : validateMeterDto parse md with
    | nil => exact absurd hval hne
    | cons a as => simp [ingestMeterEndpoint, hval]
  · intro hne
    cases hval : validateVehicleDto parse vd with
    | nil => exact absurd hval hne
    | cons a as => simp [ingestVehicleEndpoint, hval]

/-- Witness for `validation_policy`: a negative voltage is rejected with a
`ValidationError` naming `voltage`, and the store is returned unchanged. -/
theorem validation_policy_witness :
    ingestMeterEndpoint demoParse none emptyStore negVoltageMeterDto
      = ⟨emptyStore, .error (.validation ["voltage"])⟩ :=
  (validation_policy demoParse none emptyStore negVoltageMeterDto
      demoVehicleDto).2.2.2.2.2.2.2.2.1 (by simp [validateMeterDto, demoParse,
        negVoltageMeterDto])

/-- The ten scenario vehicle readings all pass the validation pipe. -/
theorem scenario_vehicle_valid :
    validateVehicleBatch demoParse scenarioVehicleDtos = [] := by
  simp [validateVehicleBatch, validateVehicleDto, scenarioVehicleDtos,
    demoParse,
    show ¬((85.5 : ℚ) < 0 ∨ 100 < (85.5 : ℚ)) by norm_num,
    show ¬((105.2134 : ℚ) < 0) by norm_num]

/-- The ten scenario meter readings all pass the validation pipe. -/
theorem scenario_meter_valid :
    validateMeterBatch demoParse scenarioMeterDtos = [] := by
  simp [validateMeterBatch, validateMeterDto, scenarioMeterDtos, demoParse,
    show ¬((125.5432 : ℚ) < 0) by norm_num,
    show ¬((240.5 : ℚ) < 0) by norm_num]

/-- Ingesting the whole scenario end to end (both validating batch
endpoints, no storage failure) produces exactly the expected vehicle
history rows. -/
theorem scenarioStore_vehicleHistory :
    scenarioStore.vehicleHistory = scenarioVehicleRows := by
  unfold scenarioStore ingestVehicleBatchEndpoint ingestMeterBatchEndpoint
  simp only [scenario_vehicle_valid, scenario_meter_valid]
  simp [scenarioVehicleRows, scenarioVehicleDtos, scenarioMeterDtos,
    ingestVehicleBatch, ingestMeterBatch, runVehicleBatchUpserts,
    runMeterBatchUpserts, upsertVehicleStatus, upsertMeterStatus,
    vehicleHistoryRow, meterHistoryRow, emptyStore, demoParse]

/-- … and exactly the expected meter history rows. -/
theorem scenarioStore_meterHistory :
    scenarioStore.meterHistory = scenarioMeterRows := by
  unfold scenarioStore ingestVehicleBatchEndpoint ingestMeterBatchEndpoint
  simp only [scenario_vehicle_valid, scenario_meter_valid]
  simp [scenarioMeterRows, scenarioVehicleDtos, scenarioMeterDtos,
    ingestVehicleBatch, ingestMeterBatch, runVehicleBatchUpserts,
    runMeterBatchUpserts, upsertVehicleStatus, upsertMeterStatus,
    vehicleHistoryRow, meterHistoryRow, emptyStore, demoParse]

/-- All ten scenario vehicle rows fall inside the window ending at
`now = 600000` (10 minutes past the epoch). -/
theorem windowVehicleRows_scenario :
    windowVehicleRows scenarioStore "V-1" 600000 = scenarioVehicleRows := by
  unfold windowVehicleRows
  rw [scenarioStore_vehicleHistory]
  norm_num [scenarioVehicleRows, oneDayMs]

theorem windowMeterRows_scenario :
    windowMeterRows scenarioStore "V-1" 600000 = scenarioMeterRows := by
  unfold windowMeterRows
  rw [scenarioStore_meterHistory]
  norm_num [scenarioMeterRows, oneDayMs]

/-- C9 counterexample: running the full end-to-end scenario — ten vehicle
and ten meter records for `V-1` at `T, T+1min, …, T+9min` whose DC and AC
totals sum to 1052.134 and 1255.432 — and querying at `now = T+10min`
returns `efficiencyRatio = 0.8381` (since `1052.134/1255.432 = 0.83806…`
rounds to 0.8381 at 4 decimal places), not `≈ 0.8383` as claimed: the
returned ratio differs from 0.8383 already in the fourth decimal. -/
theorem scenario_efficiencyRatio_is_08381 :
    getVehiclePerformance scenarioStore "V-1" 600000
      = .ok { vehicleId := "V-1"
              periodStart := -85800000
              periodEnd := 600000
              totalEnergyConsumedAc := 1255.432
              totalEnergyDeliveredDc := 1052.134
              efficiencyRatio := 0.8381
              avgBatteryTemp := 32.5
              dataPointsAnalyzed := 10
              healthStatus := "WARNING" }
    ∧ (0.8381 : ℚ) ≠ 0.8383 := by
  constructor
  · have hne : ¬(windowVehicleRows scenarioStore "V-1" 600000).length = 0 := by
      rw [windowVehicleRows_scenario]
      norm_num [scenarioVehicleRows]
    rw [getVehiclePerformance_eq_ok scenarioStore "V-1" 600000 hne]
    have hdc : (scenarioVehicleRows.map (·.kwhDeliveredDc)).sum
        = 1052.134 := by norm_num [scenarioVehicleRows]
    have hac : (scenarioMeterRows.map (·.kwhConsumedAc)).sum
        = 1255.432 := by norm_num [scenarioMeterRows]
    have htemp : (scenarioVehicleRows.map (·.batteryTemp)).sum = 325 := by
      norm_num [scenarioVehicleRows]
    have hlen : scenarioVehicleRows.length = 10 := by
      norm_num [scenarioVehicleRows]
    simp only [windowVehicleRows_scenario, windowMeterRows_scenario,
      hdc, hac, htemp, hlen]
    rw [if_pos (by norm_num : (0 : ℚ) < 1255.432)]
    rw [round4_eq (1052.134 / 1255.432 : ℚ) 8381 (by norm_num) (by norm_num)]
    have havg : ((325 : ℚ)) / ((10 : ℕ) : ℚ) = 32.5 := by norm_num
    rw [havg, round2_eq (32.5 : ℚ) 3250 (by norm_num) (by norm_num)]
    norm_num [calculateHealthStatus, oneDayMs]
  · norm_num

/-- C9 amended: for any ten vehicle readings and ten meter readings for
`V-1` at `T, T+1min, …, T+9min` whose DC values total 1052.134 and whose
AC values total 1255.432, `getVehiclePerformance("V-1")` at
`now = T+10min` returns `efficiencyRatio = 0.8381` (the ratio
1052.134/1255.432 rounded to 4 decimal places), `dataPointsAnalyzed = 10`,
and `healthStatus = WARNING`. -/
theorem scenario_efficiency_amended (T : Int) (s : Store)
    (soc dc temp ac volt : Nat → ℚ)
    (hv : s.vehicleHistory = (List.range 10).map fun i =>
      ⟨"V-1", soc i, dc i, temp i, T + 60000 * (i : ℤ)⟩)
    (hm : s.meterHistory = (List.range 10).map fun i =>
      ⟨"V-1", ac i, volt i, T + 60000 * (i : ℤ)⟩)
    (hdc : ((List.range 10).map dc).sum = 1052.134)
    (hac : ((List.range 10).map ac).sum = 1255.432) :
    ∃ sum, getVehiclePerformance s "V-1" (T + 600000) = .ok sum
      ∧ sum.efficiencyRatio = 0.8381
      ∧ sum.dataPointsAnalyzed = 10
      ∧ sum.healthStatus = "WARNING" := by
  have hwv : windowVehicleRows s "V-1" (T + 600000) = s.vehicleHistory := by
    unfold windowVehicleRows
    apply List.filter_eq_self.mpr
    intro a ha
    rw [hv] at ha
    obtain ⟨i, hi, rfl⟩ := List.mem_map.mp ha
    have hi9 : i < 10 := List.mem_range.mp hi
    simp only [Bool.and_eq_true, beq_iff_eq, decide_eq_true_eq, oneDayMs]
    refine ⟨⟨trivial, ?_⟩, ?_⟩ <;> omega
  have hwm : windowMeterRows s "V-1" (T + 600000) = s.meterHistory := by
    unfold windowMeterRows
    apply List.filter_eq_self.mpr
    intro a ha
    rw [hm] at ha
    obtain ⟨i, hi, rfl⟩ := List.mem_map.mp ha
    have hi9 : i < 10 := List.mem_range.mp hi
    simp only [Bool.and_eq_true, beq_iff_eq, decide_eq_true_eq, oneDayMs]
    refine ⟨⟨trivial, ?_⟩, ?_⟩ <;> omega
  have h10 : s.vehicleHistory.length = 10 := by
    rw [hv]
    simp
  have hne : ¬(windowVehicleRows s "V-1" (T + 600000)).length = 0 := by
    rw [hwv, h10]
    omega
  have hdcs : (s.vehicleHistory.map (·.kwhDeliveredDc)).sum = 1052.134 := by
    rw [hv, List.map_map]
    exact hdc
  have hacs : (s.meterHistory.map (·.kwhConsumedAc)).sum = 1255.432 := by
    rw [hm, List.map_map]
    exact hac
  refine ⟨_, getVehiclePerformance_eq_ok s "V-1" (T + 600000) hne,
    ?_, ?_, ?_⟩
  · dsimp only
    simp only [hwv, hwm, hdcs, hacs]
    rw [if_pos (by norm_num : (0 : ℚ) < 1255.432)]
    rw [round4_eq (1052.134 / 1255.432 : ℚ) 8381 (by norm_num) (by norm_num)]
    norm_num
  · dsimp only
    rw [hwv, h10]
  · dsimp only
    simp only [hwv, hwm, hdcs, hacs, h10]
    rw [if_pos (by norm_num : (0 : ℚ) < 1255.432)]
    norm_num [calculateHealthStatus]

/-- Witness for `scenario_efficiency_amended`, instantiated at `T = 0`
with constant per-reading values. -/
theorem scenario_efficiency_amended_witness :
    ∃ sum, getVehiclePerformance paramScenarioStore "V-1" (0 + 600000)
        = .ok sum
      ∧ sum.efficiencyRatio = 0.8381
      ∧ sum.dataPointsAnalyzed = 10
      ∧ sum.healthStatus = "WARNING" :=
  scenario_efficiency_amended 0 paramScenarioStore
    (fun _ => 85.5) (fun _ => 105.2134) (fun _ => 32.5) (fun _ => 125.5432)
    (fun _ => 240.5) rfl rfl (by norm_num [List.range_succ])
    (by norm_num [List.range_succ])

end EnergyIngestion
